import Mathlib

/-!
Verification of the Covid19-model repository (a parameterized SEIR-style
compartmental epidemic simulator with a dash UI) against its specification.

The development shallowly embeds:
* `models/params.py` — the `GenericParam` constructor (`mkGenericParam`);
* `code/models/seir.py` — the `SeirCovidModel` state (`SeirModel`), its
  construction from parameter defaults (`mkSeirModel`), the seasonal
  reproduction-number curve (`R0Fun`), the transmission rate (`betaFun`),
  the social-distancing adjustment logic (`effectiveBeta`), the ODE
  right-hand side (`diffEqn`), and the wiring of `solve()`
  (`solveIvpCall`, `solveMethod`);
* `app.py` — the slider-driven attribute-update loop of `update_seir_graph`
  (`updateModelAttr`).

Python floats are modelled by exact arithmetic: the parameter-registry layer
uses `ℚ` (all its operations are order/field computations on literals), the
ODE layer uses `ℝ` (it involves `Real.cos` and `Real.pi`).
-/

/-- Embeds the attribute record built by `GenericParam.__init__`
(`models/params.py`): the stored attributes after construction. -/
structure GenericParam where
  name : String
  min_value : ℚ
  desc : String
  max_value : ℚ
  default_value : ℚ
  is_int : Bool
  is_pct : Bool
  group : Option String
  show_label : Bool
  is_constant : Bool
deriving Repr, DecidableEq

/-- Python `max_value == min_value` where `max_value` may be `None`
(the default of the keyword argument): `None == number` is `False`. -/
def optEqRat (o : Option ℚ) (q : ℚ) : Bool :=
  match o with
  | none => false
  | some x => x == q

/-- Embeds `GenericParam.__init__` (`models/params.py` lines 3-29).
Argument order and defaulting follow the Python signature
`(name, min_value, desc, max_value=None, default_value=None, is_int=False,
is_pct=False, group=None, show_label=False)`; callers pass every argument
explicitly.  The body mirrors the source:
* `group` is set to `'constant'` only when no group was given and the RAW
  `max_value` argument compares equal to `min_value` (so an omitted
  `max_value`, i.e. `None`, never triggers this branch);
* `max_value` is then normalised to `min_value` when omitted;
* `default_value` defaults to the midpoint of the normalised bounds;
* `is_constant` is `min_value == max_value` on the normalised attributes.
No validation of any kind is performed: every input produces a record. -/
def mkGenericParam (name : String) (min_value : ℚ) (desc : String)
    (max_value : Option ℚ) (default_value : Option ℚ)
    (is_int : Bool) (is_pct : Bool) (group : Option String)
    (show_label : Bool) : GenericParam :=
  let group1 : Option String :=
    if group = none ∧ optEqRat max_value min_value then some "constant" else group
  let max1 : ℚ :=
    match max_value with
    | none => min_value
    | some mv => mv
  let default1 : ℚ :=
    match default_value with
    | none => (min_value + max1) / 2
    | some dv => dv
  let is_const : Bool := decide (min_value = max1)
  { name := name, min_value := min_value, desc := desc, max_value := max1,
    default_value := default1, is_int := is_int, is_pct := is_pct,
    group := group1, show_label := show_label, is_constant := is_const }

/-! ### The parameter registry of `SeirCovidModel.__init__` (`code/models/seir.py`) -/

/-- `self.p_R_param` from `SeirCovidModel.__init__`. -/
def p_R_param : GenericParam :=
  mkGenericParam "p_R" 0.956
    "Proportion of exposed individuals who enter the infected recovery state I_R"
    none none false false none false

/-- `self.p_H_param` from `SeirCovidModel.__init__`. -/
def p_H_param : GenericParam :=
  mkGenericParam "p_H" 0.0308
    "Proportion of exposed individuals who enter the hospitalization state I_H (excluding critical care)"
    none none false false none false

/-- `self.p_C_param` from `SeirCovidModel.__init__`. -/
def p_C_param : GenericParam :=
  mkGenericParam "p_C" 0.0132
    "Proportion of exposed individuals who enter the critical care state I_C"
    none none false false none false

/-- `self.nu_param` from `SeirCovidModel.__init__`. -/
def nu_param : GenericParam :=
  mkGenericParam "nu" (7 / 4.6)
    "Rate at which exposed individuals become infected"
    none none false false none false

/-- `self.gamma_param` from `SeirCovidModel.__init__`. -/
def gamma_param : GenericParam :=
  mkGenericParam "gamma" (7 / 5)
    "1/gamma is the duration in weeks a person is infected before they enter hospitalization"
    none none false false none false

/-- `self.delta_H_param` from `SeirCovidModel.__init__`. -/
def delta_H_param : GenericParam :=
  mkGenericParam "delta_H" (7 / 8)
    "1/delta_H is the duration in weeks hospitalization cases which do not receive critical care"
    none none false false none false

/-- `self.delta_C_param` from `SeirCovidModel.__init__`. -/
def delta_C_param : GenericParam :=
  mkGenericParam "delta_C" (7 / 6)
    "1/delta_C is the duration in weeks of hospitalization cases prior to receiving critical care"
    none none false false none false

/-- `self.xi_C_param` from `SeirCovidModel.__init__`. -/
def xi_C_param : GenericParam :=
  mkGenericParam "xi_C" (7 / 10)
    "1/xi_C is the duration in weeks of critical care"
    none none false false none false

/-- `self.max_R0_param` from `SeirCovidModel.__init__`. -/
def max_R0_param : GenericParam :=
  mkGenericParam "max_R0" 2
    "Maximum of the basic reproduction number"
    (some 2.5) none false false (some "advanced") true

/-- `self.delta_param` from `SeirCovidModel.__init__`. -/
def delta_param : GenericParam :=
  mkGenericParam "delta" 0
    "Proportional decline in R0 in the summer"
    (some 0.3) none false true (some "advanced") true

/-- `self.phi_param` from `SeirCovidModel.__init__`. -/
def phi_param : GenericParam :=
  mkGenericParam "phi" (-3.8)
    "Phase shift of the seasonal forcing"
    none none false false none false

/-- `self.start_sd_param` from `SeirCovidModel.__init__`. -/
def start_sd_param : GenericParam :=
  mkGenericParam "start_sd" 0
    "Start of social distancing (weeks after initial case)"
    (some 20) (some 2) true false (some "static_social_distancing") false

/-- `self.sd_duration_param` from `SeirCovidModel.__init__`. -/
def sd_duration_param : GenericParam :=
  mkGenericParam "sd_duration" 0
    "Duration of social distancing (weeks)"
    (some 40) (some 4) true false (some "static_social_distancing") false

/-- `self.sd_reduction_param` from `SeirCovidModel.__init__`. -/
def sd_reduction_param : GenericParam :=
  mkGenericParam "sd_reduction" 0
    "Percentage to reduce weekly contact by"
    (some 1) (some 0.4) false true (some "static_social_distancing") false

/-- `self.dynamic_sd_cutoff_param` from `SeirCovidModel.__init__`. -/
def dynamic_sd_cutoff_param : GenericParam :=
  mkGenericParam "dynamic_sd_cutoff" 20
    "Number of cases per 10,000 required to trigger social distancing"
    (some 100) (some 38) true false (some "dynamic_social_distancing") false

/-- `self.params`, the declaration-ordered registry list. -/
def registryParams : List GenericParam :=
  [p_R_param, p_H_param, p_C_param, nu_param, gamma_param,
   delta_H_param, delta_C_param, xi_C_param, max_R0_param,
   delta_param, phi_param,
   start_sd_param, sd_duration_param, sd_reduction_param,
   dynamic_sd_cutoff_param]

/-! ### The epidemic model state (`code/models/seir.py`) -/

/-- The mutable numeric state of a `SeirCovidModel` instance: the
construction-time configuration (population, horizon, the two policy
flags) and the current parameter values set by `__init__` from the
registry defaults.  `start_sd` and `sd_duration` are stored as real
numbers but are integer-valued (the source applies `int(...)`).
The derived attributes `self.t` (see `modelT`) and the `GenericParam`
objects (module-level above, since they are construction-time constants)
are kept outside the record; `start_date`/`t_weeks` carry calendar dates
and are display-only. -/
structure SeirModel where
  pop_size : ℝ
  num_weeks : ℕ
  static_sd : Bool
  dynamic_sd : Bool
  p_R : ℝ
  p_H : ℝ
  p_C : ℝ
  nu : ℝ
  gamma : ℝ
  delta_H : ℝ
  delta_C : ℝ
  xi_C : ℝ
  max_R0 : ℝ
  phi : ℝ
  delta : ℝ
  start_sd : ℝ
  sd_duration : ℝ
  sd_reduction : ℝ
  dynamic_sd_cutoff : ℝ

/-- Embeds `SeirCovidModel.__init__`: every current value is the
corresponding parameter default; `start_sd` and `sd_duration` pass
through `int(...)`, which on these non-negative defaults is the floor. -/
noncomputable def mkSeirModel (pop_size : ℝ) (num_weeks : ℕ)
    (static_sd : Bool) (dynamic_sd : Bool) : SeirModel :=
  { pop_size := pop_size
    num_weeks := num_weeks
    static_sd := static_sd
    dynamic_sd := dynamic_sd
    p_R := (p_R_param.default_value : ℝ)
    p_H := (p_H_param.default_value : ℝ)
    p_C := (p_C_param.default_value : ℝ)
    nu := (nu_param.default_value : ℝ)
    gamma := (gamma_param.default_value : ℝ)
    delta_H := (delta_H_param.default_value : ℝ)
    delta_C := (delta_C_param.default_value : ℝ)
    xi_C := (xi_C_param.default_value : ℝ)
    max_R0 := (max_R0_param.default_value : ℝ)
    phi := (phi_param.default_value : ℝ)
    delta := (delta_param.default_value : ℝ)
    start_sd := ((⌊start_sd_param.default_value⌋ : ℤ) : ℝ)
    sd_duration := ((⌊sd_duration_param.default_value⌋ : ℤ) : ℝ)
    sd_reduction := (sd_reduction_param.default_value : ℝ)
    dynamic_sd_cutoff := (dynamic_sd_cutoff_param.default_value : ℝ) }

/-- `self.t = range(0, self.num_weeks + 1)`, as real time points. -/
noncomputable def modelT (m : SeirModel) : List ℝ :=
  (List.range (m.num_weeks + 1)).map (Nat.cast : ℕ → ℝ)

/-- The model instance built by the dash app (`app.py`):
`SeirCovidModel(pop_size=10000, num_weeks=2*52, ...)` with the default
policy flags `static_sd=True, dynamic_sd=False`. -/
noncomputable def appModel : SeirModel := mkSeirModel 10000 (2 * 52) true false

/-- `SeirCovidModel._adjust_R0` (`code/models/seir.py` lines 85-86). -/
noncomputable def adjust_R0 (m : SeirModel) (R0 : ℝ) : ℝ :=
  (1 - m.sd_reduction) * R0

/-- `SeirCovidModel._R0` (`code/models/seir.py` lines 88-93): the
seasonally forced reproduction number. -/
noncomputable def R0Fun (m : SeirModel) (t : ℝ) : ℝ :=
  let amp := (m.max_R0 - (1 - m.delta) * m.max_R0) / 2
  let vert_shift := (m.max_R0 + (1 - m.delta) * m.max_R0) / 2
  let period : ℝ := 52
  amp * Real.cos ((2 * Real.pi / period) * (t + m.phi)) + vert_shift

/-- `SeirCovidModel._beta` (`code/models/seir.py` lines 95-96):
the unadjusted transmission rate `gamma * R0(t)`. -/
noncomputable def betaFun (m : SeirModel) (t : ℝ) : ℝ :=
  m.gamma * R0Fun m t

/-- The social-distancing gating applied to `beta_t` inside
`SeirCovidModel._diff_eqn` (`code/models/seir.py` lines 114-124),
factored over its two inputs `t` and `infected` (the spec names this
`effective_rate(t, current_infected)`).  First conditional: the static
window (note the strict chained comparison).  Second conditional: the
dynamic trigger, guarded by Python truthiness of the float `infected`
(`infected != 0`), with its nested `if`. -/
noncomputable def effectiveBeta (m : SeirModel) (t : ℝ) (infected : ℝ) : ℝ :=
  let beta_t := betaFun m t
  let beta_t1 :=
    if m.static_sd ∧ m.start_sd < t ∧ t < m.start_sd + m.sd_duration then
      adjust_R0 m beta_t
    else beta_t
  if m.dynamic_sd ∧ infected ≠ 0 then
    if infected > m.dynamic_sd_cutoff ∧
        (t < m.start_sd ∨ t > m.start_sd + m.sd_duration) then
      adjust_R0 m beta_t1
    else beta_t1
  else beta_t1

/-- One point of the eleven-compartment state space
`(S, E, I_R, I_H, I_C, R_R, H_H, H_C, R_H, C_C, R_C)`. -/
structure SeirState where
  S : ℝ
  E : ℝ
  I_R : ℝ
  I_H : ℝ
  I_C : ℝ
  R_R : ℝ
  H_H : ℝ
  H_C : ℝ
  R_H : ℝ
  C_C : ℝ
  R_C : ℝ

/-- `SeirCovidModel._diff_eqn` (`code/models/seir.py` lines 98-137): the
ODE right-hand side.  As in the source, the epidemiological rates are
passed as arguments (they arrive via the `args=` of `solve_ivp`), while
`pop_size`, the policy flags and the social-distancing parameters are
read from the instance.  The gated `beta_t` computation is the factored
`effectiveBeta` above. -/
noncomputable def diffEqn (m : SeirModel) (t : ℝ) (y : SeirState)
    (p_R p_H p_C nu gamma delta_H delta_C xi_C : ℝ) : SeirState :=
  let infected := y.I_R + y.I_H + y.I_C
  let beta_t := effectiveBeta m t infected
  let dSdt := -beta_t * (y.I_R + y.I_H + y.I_C) * y.S / m.pop_size
  { S := dSdt
    E := -dSdt - nu * y.E
    I_R := nu * p_R * y.E - gamma * y.I_R
    I_H := nu * p_H * y.E - gamma * y.I_H
    I_C := nu * p_C * y.E - gamma * y.I_C
    R_R := gamma * y.I_R
    H_H := gamma * y.I_H - delta_H * y.H_H
    H_C := gamma * y.I_C - delta_C * y.H_C
    R_H := delta_H * y.H_H
    C_C := delta_C * y.H_C - xi_C * y.C_C
    R_C := xi_C * y.C_C }

/-! ### `SeirCovidModel.solve` (`code/models/seir.py` lines 139-158) -/

/-- The initial condition built at the top of `solve()`: one exposed
individual, the rest susceptible, every other compartment zero
(`S0 = pop_size - (E0 + I_R0 + ... + R_C0)`). -/
noncomputable def initState (m : SeirModel) : SeirState :=
  { S := m.pop_size - (1 + 0 + 0 + 0 + 0 + 0 + 0 + 0 + 0 + 0)
    E := 1
    I_R := 0
    I_H := 0
    I_C := 0
    R_R := 0
    H_H := 0
    H_C := 0
    R_H := 0
    C_C := 0
    R_C := 0 }

/-- The invocation of `scipy.integrate.solve_ivp` made by `solve()`:
its time span, initial state, extra `args`, and `t_eval` keyword.
`solve_ivp` is an external library function, so only its call record is
embedded; `tEval := none` records that `solve()` passes NO `t_eval`
keyword (compare `solve_ivp(self._diff_eqn, (self.t[0], self.t[-1]), y0,
args=(...))` with the library signature
`solve_ivp(fun, t_span, y0, method, t_eval=None, ...)`). -/
structure IvpCall where
  tSpan : ℝ × ℝ
  y0 : SeirState
  args : ℝ × ℝ × ℝ × ℝ × ℝ × ℝ × ℝ × ℝ
  tEval : Option (List ℝ)

/-- The `solve_ivp` call assembled by `solve()`: span
`(self.t[0], self.t[-1])`, the `y0` above, `args = (self.p_R, ...,
self.xi_C)`, and no `t_eval`. -/
noncomputable def solveIvpCall (m : SeirModel) : IvpCall :=
  { tSpan := ((modelT m).headD 0, (modelT m).getLastD 0)
    y0 := initState m
    args := (m.p_R, m.p_H, m.p_C, m.nu, m.gamma, m.delta_H, m.delta_C, m.xi_C)
    tEval := none }

/-- Modelled from the documented interface of the external library
`scipy.integrate.solve_ivp`: the returned solution arrays `sol.t` /
`sol.y` are sampled at the points of `t_eval` when that keyword is
given, and otherwise at the internal mesh chosen by the adaptive
stepper. -/
def ivpSampleTimes (call : IvpCall) (mesh : List ℝ) : List ℝ :=
  call.tEval.getD mesh

/-- Modelled from the documented interface of the external library
`scipy.integrate.solve_ivp`: any internal mesh of the adaptive stepper
is a strictly increasing list of times running from the start to the
end of the requested span; nothing constrains which intermediate points
it contains or how many. -/
def isAdaptiveMesh (call : IvpCall) (mesh : List ℝ) : Prop :=
  mesh.head? = some call.tSpan.1 ∧ mesh.getLast? = some call.tSpan.2 ∧
    List.Chain' (fun a b => a < b) mesh

/-- The state-passing reading of the method `solve()`: its body binds
only local names (`E0`, ..., `y0`, `sol`, and the unpacked trajectories)
and performs no assignment to any attribute of `self`, so the post-call
instance is the pre-call instance, and the observable effect is the
`solve_ivp` invocation it makes. -/
noncomputable def solveMethod (m : SeirModel) : SeirModel × IvpCall :=
  (m, solveIvpCall m)

/-! ### The slider-update loop of `update_seir_graph` (`app.py` lines 62-66) -/

/-- The attribute names bound on a `SeirCovidModel` instance by
`__init__`, in assignment order: this is what `hasattr(seir_model, k)`
consults. -/
def seirAttrNames : List String :=
  ["pop_size", "num_weeks", "start_date", "static_sd", "dynamic_sd",
   "p_R_param", "p_H_param", "p_C_param", "nu_param", "gamma_param",
   "delta_H_param", "delta_C_param", "xi_C_param", "max_R0_param",
   "delta_param", "phi_param", "start_sd_param", "sd_duration_param",
   "sd_reduction_param", "dynamic_sd_cutoff_param", "params",
   "p_R", "p_H", "p_C", "nu", "gamma", "delta_H", "delta_C", "xi_C",
   "max_R0", "phi", "delta", "start_sd", "sd_duration", "sd_reduction",
   "dynamic_sd_cutoff", "t", "t_weeks"]

/-- `setattr(seir_model, k, v)` for the numeric slider values the
callback feeds in: overwrites the real-valued attribute named `k`.
The callback only ever passes the tunable parameter names (and the
non-attribute key `sd_switches`), all carrying slider floats, so only
the real-valued fields of `SeirModel` are reachable here; any other
attribute name falls through unchanged. -/
def setNumAttr (m : SeirModel) (k : String) (v : ℝ) : SeirModel :=
  match k with
  | "pop_size" => { m with pop_size := v }
  | "p_R" => { m with p_R := v }
  | "p_H" => { m with p_H := v }
  | "p_C" => { m with p_C := v }
  | "nu" => { m with nu := v }
  | "gamma" => { m with gamma := v }
  | "delta_H" => { m with delta_H := v }
  | "delta_C" => { m with delta_C := v }
  | "xi_C" => { m with xi_C := v }
  | "max_R0" => { m with max_R0 := v }
  | "phi" => { m with phi := v }
  | "delta" => { m with delta := v }
  | "start_sd" => { m with start_sd := v }
  | "sd_duration" => { m with sd_duration := v }
  | "sd_reduction" => { m with sd_reduction := v }
  | "dynamic_sd_cutoff" => { m with dynamic_sd_cutoff := v }
  | _ => m

/-- The error vocabulary of the specification: `UnknownParameterError`.
It appears in no Python source file of the repository. -/
inductive UpdateError where
  | unknownParameter : UpdateError
deriving DecidableEq

/-- The per-identifier body of the update loop in `update_seir_graph`
(`app.py` lines 63-65):
`if hasattr(seir_model, k): setattr(seir_model, k, v)`.
The `Except` return type makes an error outcome expressible, but the
source contains no `raise`, so every branch returns `Except.ok`: an
identifier that is not an attribute is silently skipped. -/
def updateModelAttr (m : SeirModel) (k : String) (v : ℝ) :
    Except UpdateError SeirModel :=
  if seirAttrNames.contains k then Except.ok (setNumAttr m k v)
  else Except.ok m

/-! ### Evaluation lemmas for the app instance and its time grid -/

theorem appModel_static_sd : appModel.static_sd = true := rfl

theorem appModel_dynamic_sd : appModel.dynamic_sd = false := rfl

theorem appModel_num_weeks : appModel.num_weeks = 104 := rfl

theorem appModel_pop_size : appModel.pop_size = 10000 := rfl

theorem appModel_p_R : appModel.p_R = 0.956 := by
  norm_num [appModel, mkSeirModel, p_R_param, mkGenericParam]

theorem appModel_p_H : appModel.p_H = 0.0308 := by
  norm_num [appModel, mkSeirModel, p_H_param, mkGenericParam]

theorem appModel_p_C : appModel.p_C = 0.0132 := by
  norm_num [appModel, mkSeirModel, p_C_param, mkGenericParam]

theorem appModel_start_sd : appModel.start_sd = 2 := by
  norm_num [appModel, mkSeirModel, start_sd_param, mkGenericParam]

theorem appModel_sd_duration : appModel.sd_duration = 4 := by
  norm_num [appModel, mkSeirModel, sd_duration_param, mkGenericParam]

theorem appModel_sd_reduction : appModel.sd_reduction = 0.4 := by
  norm_num [appModel, mkSeirModel, sd_reduction_param, mkGenericParam]

theorem appModel_prob_sum : appModel.p_R + appModel.p_H + appModel.p_C = 1 := by
  rw [appModel_p_R, appModel_p_H, appModel_p_C]; norm_num

theorem modelT_headD (m : SeirModel) : (modelT m).headD 0 = 0 := by
  simp [modelT, List.range_succ_eq_map]

theorem modelT_getLastD (m : SeirModel) :
    (modelT m).getLastD 0 = (m.num_weeks : ℝ) := by
  simp [modelT, List.range_succ]

theorem modelT_length (m : SeirModel) : (modelT m).length = m.num_weeks + 1 := by
  unfold modelT
  rw [List.length_map, List.length_range]

/-! ### Claims about the parameter layer (`models/params.py`) -/

/-- C3 counterexample: `p_R_param` is built with `max_value` omitted and
no explicit group.  The source guard `group is None and max_value ==
min_value` compares the RAW argument, and `None == 0.956` is false, so
the group stays unset even though the parameter is constant — refuting
the claim that an omitted maximum yields group `'constant'`. -/
theorem constant_group_counterexample :
    p_R_param.group ≠ some "constant" ∧ p_R_param.is_constant = true := by
  constructor
  · simp [p_R_param, mkGenericParam, optEqRat]
  · norm_num [p_R_param, mkGenericParam]

/-- C3 (amended): when the maximum is EXPLICITLY supplied equal to the
minimum and no group is given, the group is classified `'constant'`;
when the maximum is omitted the group is left as given even though the
parameter is constant; and for every parameter, `is_constant` holds iff
the stored (normalised) minimum equals the stored maximum. -/
theorem constant_classification (name desc : String) (mn : ℚ)
    (omax odef : Option ℚ) (g : Option String) (ii ip sl : Bool) :
    (mkGenericParam name mn desc (some mn) odef ii ip none sl).group
        = some "constant" ∧
    (mkGenericParam name mn desc none odef ii ip none sl).group = none ∧
    ((mkGenericParam name mn desc omax odef ii ip g sl).is_constant = true ↔
      (mkGenericParam name mn desc omax odef ii ip g sl).min_value =
        (mkGenericParam name mn desc omax odef ii ip g sl).max_value) := by
  refine ⟨?_, ?_, ?_⟩
  · simp [mkGenericParam, optEqRat]
  · simp [mkGenericParam, optEqRat]
  · simp [mkGenericParam]

/-- C4 counterexample: `GenericParam` construction with `minimum = 5 >
maximum = 1` and an explicit default `7` outside `[min, max]` succeeds
and returns a record (refuting the claim that definition fails with
`InvalidBoundsError` in these cases — no validation exists in the
source). -/
theorem invalid_bounds_counterexample :
    (mkGenericParam "x" 5 "" (some 1) (some 7) false false none
        false).max_value <
      (mkGenericParam "x" 5 "" (some 1) (some 7) false false none
        false).min_value ∧
    (mkGenericParam "x" 5 "" (some 1) (some 7) false false none
        false).default_value = 7 := by
  constructor
  · norm_num [mkGenericParam]
  · norm_num [mkGenericParam]

/-- C4 (amended): parameter definition performs no validation at all:
for every combination of bounds and explicit default — including
`minimum > maximum` and a default outside `[minimum, maximum]` — a
Parameter is constructed and returned, storing the arguments verbatim;
the source defines no `InvalidBoundsError` and no failure path. -/
theorem genericParam_never_fails (mn mx d : ℚ) :
    (mkGenericParam "x" mn "" (some mx) (some d) false false none
        false).min_value = mn ∧
    (mkGenericParam "x" mn "" (some mx) (some d) false false none
        false).max_value = mx ∧
    (mkGenericParam "x" mn "" (some mx) (some d) false false none
        false).default_value = d := by
  refine ⟨rfl, rfl, rfl⟩

/-- C5 counterexample: an explicitly supplied default is stored without
validation, so `minimum <= default <= maximum` fails: with bounds
`[0, 1]` and explicit default `10`, the default exceeds the maximum. -/
theorem default_out_of_bounds_counterexample :
    ¬ ((mkGenericParam "x" 0 "" (some 1) (some 10) false false none
          false).default_value ≤
        (mkGenericParam "x" 0 "" (some 1) (some 10) false false none
          false).max_value) := by
  norm_num [mkGenericParam]

/-- C5 (amended): when no default is supplied, the default is computed
as the midpoint `(minimum + maximum) / 2` (equal to `minimum` when the
maximum is omitted), and then `minimum <= default <= maximum` holds
provided `minimum <= maximum`; an explicitly supplied default is stored
unvalidated and may lie outside the bounds. -/
theorem default_midpoint_in_bounds (mn mx : ℚ) (h : mn ≤ mx) :
    ((mkGenericParam "x" mn "" (some mx) none false false none
        false).default_value = (mn + mx) / 2 ∧
      mn ≤ (mkGenericParam "x" mn "" (some mx) none false false none
        false).default_value ∧
      (mkGenericParam "x" mn "" (some mx) none false false none
        false).default_value ≤ mx) ∧
    (mkGenericParam "x" mn "" none none false false none
        false).default_value = mn := by
  constructor
  · refine ⟨rfl, ?_, ?_⟩
    · show mn ≤ (mn + mx) / 2
      linarith
    · show (mn + mx) / 2 ≤ mx
      linarith
  · show (mn + mn) / 2 = mn
    ring

/-- C5 witness: the amended statement instantiated at bounds `[0, 1]`:
the computed default is the midpoint `1/2` and lies within the bounds. -/
theorem default_midpoint_in_bounds_witness :
    (0 : ℚ) ≤ 1 ∧
    ((mkGenericParam "x" 0 "" (some 1) none false false none
        false).default_value = (0 + 1) / 2 ∧
      (0 : ℚ) ≤ (mkGenericParam "x" 0 "" (some 1) none false false none
        false).default_value ∧
      (mkGenericParam "x" 0 "" (some 1) none false false none
        false).default_value ≤ 1) ∧
    (mkGenericParam "x" 0 "" none none false false none
        false).default_value = 0 :=
  ⟨by norm_num, (default_midpoint_in_bounds 0 1 (by norm_num)).1,
    (default_midpoint_in_bounds 0 1 (by norm_num)).2⟩

/-! ### Claims about the transmission rate and its gating (`code/models/seir.py`) -/

/-- C7: for every week `t` the unadjusted transmission rate is
`gamma * R0(t)` with `R0(t) = amp * cos(2*pi*(t+phi)/52) + vshift`,
`amp = (max_R0 - (1-delta)*max_R0)/2`,
`vshift = (max_R0 + (1-delta)*max_R0)/2`; consequently the rate is
periodic with period 52 weeks. -/
theorem betaFun_formula_periodic (m : SeirModel) (t : ℝ) :
    betaFun m t =
      m.gamma * ((m.max_R0 - (1 - m.delta) * m.max_R0) / 2 *
        Real.cos (2 * Real.pi * (t + m.phi) / 52) +
        (m.max_R0 + (1 - m.delta) * m.max_R0) / 2) ∧
    betaFun m (t + 52) = betaFun m t := by
  constructor
  · simp only [betaFun, R0Fun]
    rw [show 2 * Real.pi / 52 * (t + m.phi) =
        2 * Real.pi * (t + m.phi) / 52 from by ring]
  · simp only [betaFun, R0Fun]
    rw [show 2 * Real.pi / 52 * (t + 52 + m.phi) =
        2 * Real.pi / 52 * (t + m.phi) + 2 * Real.pi from by ring,
      Real.cos_add_two_pi]

/-- C9: whatever the policy flags, the time and the infected count, the
social-distancing reduction is applied at most once: the effective rate
is either the unadjusted `beta(t)` or `(1 - sd_reduction) * beta(t)`,
never the twice-reduced value — the static window
`start_sd < t < start_sd + sd_duration` and the dynamic trigger window
`t < start_sd or t > start_sd + sd_duration` are disjoint. -/
theorem effectiveBeta_single_adjustment (m : SeirModel) (t infected : ℝ) :
    effectiveBeta m t infected = betaFun m t ∨
    effectiveBeta m t infected = (1 - m.sd_reduction) * betaFun m t := by
  simp only [effectiveBeta, adjust_R0]
  split_ifs with h1 h2 h3 h4 h5
  · exfalso
    rcases h2.2 with hlt | hgt
    · exact absurd h3.2.1 (not_lt.mpr hlt.le)
    · exact absurd h3.2.2 (not_lt.mpr hgt.le)
  · right; rfl
  · right; rfl
  · left; rfl
  · right; rfl
  · left; rfl

/-- C8: with the static policy active and the infected count zero (so
the dynamic trigger, guarded by float truthiness, cannot fire), the
effective rate is reduced by the factor `(1 - sd_reduction)` exactly
inside the open window `start_sd < t < start_sd + sd_duration` and is
the unadjusted transmission rate otherwise. -/
theorem effectiveBeta_static_window (m : SeirModel) (t : ℝ)
    (hs : m.static_sd = true) :
    effectiveBeta m t 0 =
      if m.start_sd < t ∧ t < m.start_sd + m.sd_duration then
        (1 - m.sd_reduction) * betaFun m t
      else betaFun m t := by
  simp only [effectiveBeta, adjust_R0, hs]
  simp

/-- C8 witness: on the app's model instance (static policy active,
`start_sd = 2`, `sd_duration = 4`, `sd_reduction = 0.4`), the effective
rate at week 3 with zero infected is `0.6` times the transmission rate,
while at week 10 it is the transmission rate unmodified. -/
theorem effectiveBeta_static_window_witness :
    appModel.static_sd = true ∧
    effectiveBeta appModel 3 0 = (1 - 0.4) * betaFun appModel 3 ∧
    effectiveBeta appModel 10 0 = betaFun appModel 10 := by
  refine ⟨rfl, ?_, ?_⟩
  · rw [effectiveBeta_static_window appModel 3 rfl, appModel_sd_reduction,
      if_pos]
    rw [appModel_start_sd, appModel_sd_duration]
    norm_num
  · rw [effectiveBeta_static_window appModel 10 rfl, if_neg]
    rw [appModel_start_sd, appModel_sd_duration]
    norm_num

/-! ### Conservation of population (C6) -/

/-- C6: under the hypothesis `p_R + p_H + p_C = 1` on the arguments
handed to the right-hand side, the eleven derivatives returned by
`_diff_eqn` sum to zero at every time and state — the gated `beta_t`
cancels between `dS` and `dE`, and the remaining terms telescope — so
`S+E+I_R+I_H+I_C+R_R+H_H+H_C+R_H+C_C+R_C` is conserved along exact
solutions. -/
theorem diffEqn_sum_zero (m : SeirModel) (t : ℝ) (y : SeirState)
    (p_R p_H p_C nu gamma delta_H delta_C xi_C : ℝ)
    (h : p_R + p_H + p_C = 1) :
    (diffEqn m t y p_R p_H p_C nu gamma delta_H delta_C xi_C).S +
      (diffEqn m t y p_R p_H p_C nu gamma delta_H delta_C xi_C).E +
      (diffEqn m t y p_R p_H p_C nu gamma delta_H delta_C xi_C).I_R +
      (diffEqn m t y p_R p_H p_C nu gamma delta_H delta_C xi_C).I_H +
      (diffEqn m t y p_R p_H p_C nu gamma delta_H delta_C xi_C).I_C +
      (diffEqn m t y p_R p_H p_C nu gamma delta_H delta_C xi_C).R_R +
      (diffEqn m t y p_R p_H p_C nu gamma delta_H delta_C xi_C).H_H +
      (diffEqn m t y p_R p_H p_C nu gamma delta_H delta_C xi_C).H_C +
      (diffEqn m t y p_R p_H p_C nu gamma delta_H delta_C xi_C).R_H +
      (diffEqn m t y p_R p_H p_C nu gamma delta_H delta_C xi_C).C_C +
      (diffEqn m t y p_R p_H p_C nu gamma delta_H delta_C xi_C).R_C = 0 := by
  simp only [diffEqn]
  linear_combination (nu * y.E) * h

/-- C6 witness: the default parameter values satisfy
`p_R + p_H + p_C = 0.956 + 0.0308 + 0.0132 = 1`, and at the app model's
initial state the derivatives sum to zero. -/
theorem diffEqn_sum_zero_witness :
    appModel.p_R + appModel.p_H + appModel.p_C = 1 ∧
    (diffEqn appModel 0 (initState appModel) appModel.p_R appModel.p_H
        appModel.p_C appModel.nu appModel.gamma appModel.delta_H
        appModel.delta_C appModel.xi_C).S +
      (diffEqn appModel 0 (initState appModel) appModel.p_R appModel.p_H
        appModel.p_C appModel.nu appModel.gamma appModel.delta_H
        appModel.delta_C appModel.xi_C).E +
      (diffEqn appModel 0 (initState appModel) appModel.p_R appModel.p_H
        appModel.p_C appModel.nu appModel.gamma appModel.delta_H
        appModel.delta_C appModel.xi_C).I_R +
      (diffEqn appModel 0 (initState appModel) appModel.p_R appModel.p_H
        appModel.p_C appModel.nu appModel.gamma appModel.delta_H
        appModel.delta_C appModel.xi_C).I_H +
      (diffEqn appModel 0 (initState appModel) appModel.p_R appModel.p_H
        appModel.p_C appModel.nu appModel.gamma appModel.delta_H
        appModel.delta_C appModel.xi_C).I_C +
      (diffEqn appModel 0 (initState appModel) appModel.p_R appModel.p_H
        appModel.p_C appModel.nu appModel.gamma appModel.delta_H
        appModel.delta_C appModel.xi_C).R_R +
      (diffEqn appModel 0 (initState appModel) appModel.p_R appModel.p_H
        appModel.p_C appModel.nu appModel.gamma appModel.delta_H
        appModel.delta_C appModel.xi_C).H_H +
      (diffEqn appModel 0 (initState appModel) appModel.p_R appModel.p_H
        appModel.p_C appModel.nu appModel.gamma appModel.delta_H
        appModel.delta_C appModel.xi_C).H_C +
      (diffEqn appModel 0 (initState appModel) appModel.p_R appModel.p_H
        appModel.p_C appModel.nu appModel.gamma appModel.delta_H
        appModel.delta_C appModel.xi_C).R_H +
      (diffEqn appModel 0 (initState appModel) appModel.p_R appModel.p_H
        appModel.p_C appModel.nu appModel.gamma appModel.delta_H
        appModel.delta_C appModel.xi_C).C_C +
      (diffEqn appModel 0 (initState appModel) appModel.p_R appModel.p_H
        appModel.p_C appModel.nu appModel.gamma appModel.delta_H
        appModel.delta_C appModel.xi_C).R_C = 0 :=
  ⟨appModel_prob_sum,
    diffEqn_sum_zero appModel 0 (initState appModel) appModel.p_R
      appModel.p_H appModel.p_C appModel.nu appModel.gamma appModel.delta_H
      appModel.delta_C appModel.xi_C appModel_prob_sum⟩

/-! ### Purity of `solve()` (C10) -/

/-- C10: the method `solve()` performs no assignment to any attribute of
the model: the post-call model state is exactly the pre-call state (so
population size, horizon, every current parameter value, both policy
flags, and the derived weekly time grid are unchanged), and two
consecutive calls assemble identical `solve_ivp` invocations — same
time span, same initial condition, same `args`, same `t_eval`. -/
theorem solve_preserves_model (m : SeirModel) :
    (solveMethod m).1 = m ∧
    modelT (solveMethod m).1 = modelT m ∧
    (solveMethod ((solveMethod m).1)).2 = (solveMethod m).2 :=
  ⟨rfl, rfl, rfl⟩

/-! ### Sampling of the integration output (C1) -/

/-- C1 evaluation: on the app model (pop 10000, 104-week horizon) the
`solve_ivp` call built by `solve()` has the claimed time span `(0, 104)`
and the claimed initial condition (`E = 1`, `S = pop_size - 1`), but
passes `t_eval = None`, so the returned trajectories are sampled at the
adaptive stepper's internal mesh: any strictly increasing mesh from 0
to 104 is admissible — for instance `[0, 104]`, whose samples are not
the 105 weekly points `self.t` the claim (and the plotting code, which
pairs trajectories with `self.t_weeks` index by index) requires. -/
theorem solve_samples_internal_mesh :
    (solveIvpCall appModel).tSpan = (0, 104) ∧
    (solveIvpCall appModel).y0.E = 1 ∧
    (solveIvpCall appModel).y0.S = 10000 - 1 ∧
    (solveIvpCall appModel).tEval = none ∧
    isAdaptiveMesh (solveIvpCall appModel) [0, 104] ∧
    ivpSampleTimes (solveIvpCall appModel) [0, 104] ≠ modelT appModel ∧
    (modelT appModel).length = 105 := by
  have hspan : (solveIvpCall appModel).tSpan = (0, 104) := by
    show ((modelT appModel).headD 0, (modelT appModel).getLastD 0) = (0, 104)
    rw [modelT_headD, modelT_getLastD, appModel_num_weeks]
    norm_num
  have hlen : (modelT appModel).length = 105 := by
    rw [modelT_length, appModel_num_weeks]
  refine ⟨hspan, rfl, ?_, rfl, ?_, ?_, hlen⟩
  · show appModel.pop_size - (1 + 0 + 0 + 0 + 0 + 0 + 0 + 0 + 0 + 0)
        = 10000 - 1
    rw [appModel_pop_size]
    norm_num
  · refine ⟨?_, ?_, ?_⟩
    · rw [hspan]
      rfl
    · rw [hspan]
      rfl
    · refine List.chain'_pair.mpr ?_
      norm_num
  · intro hEq
    have hL := congrArg List.length hEq
    rw [hlen] at hL
    have h2 : (ivpSampleTimes (solveIvpCall appModel) [0, 104]).length = 2 :=
      rfl
    rw [h2] at hL
    norm_num at hL

/-! ### The slider-update loop and unknown identifiers (C2) -/

/-- C2 counterexample: the app's own callback zips the non-attribute key
`sd_switches` into the update loop; `hasattr` is false for it, so the
loop body silently skips it — the model is returned unchanged and no
error is produced, refuting the claim that an unrecognized identifier
raises `UnknownParameterError`. -/
theorem update_unknown_key_counterexample :
    updateModelAttr appModel "sd_switches" 1 = Except.ok appModel ∧
    updateModelAttr appModel "sd_switches" 1 ≠
      Except.error UpdateError.unknownParameter := by
  constructor
  · rfl
  · intro hEq
    exact Except.noConfusion ((rfl : updateModelAttr appModel "sd_switches" 1
      = Except.ok appModel) ▸ hEq)

/-- C2 (amended): the update operation never raises: an identifier that
is not an attribute of the model is silently dropped (the model is
returned unchanged, with a success result — the source defines no
`UnknownParameterError`), and an identifier that IS an attribute is
overwritten even when it belongs to a constant parameter, as `p_R`
does. -/
theorem update_unknown_key_silently_dropped (m : SeirModel) (k : String)
    (v : ℝ) (h : seirAttrNames.contains k = false) :
    updateModelAttr m k v = Except.ok m ∧
    updateModelAttr m "p_R" v = Except.ok { m with p_R := v } := by
  constructor
  · unfold updateModelAttr
    rw [h]
    rfl
  · rfl

/-- C2 witness: the amended statement at the concrete non-attribute key
`sd_switches` fed in by the app callback. -/
theorem update_unknown_key_silently_dropped_witness :
    seirAttrNames.contains "sd_switches" = false ∧
    updateModelAttr appModel "sd_switches" (1 : ℝ) = Except.ok appModel :=
  ⟨rfl, (update_unknown_key_silently_dropped appModel "sd_switches" 1 rfl).1⟩
